import Mathlib

/-!
Verification of the Cylc UI Server handler module (`cylc/uiserver/handlers.py`)
against its natural-language specification.

The development shallowly embeds the authorisation gate (`CylcAppHandler`),
the user-profile endpoint (`UserProfileHandler.get`), and the websocket
subscription handler (`SubscriptionHandler`) together with the bounded
`asyncio.Queue` it uses.  The per-connection lifecycle dispatched by the web
framework (handler construction and `initialize`, the authenticated handshake
`get`, sub-protocol negotiation, `open`, and `on_message` events) is embedded
as a trace of primitive actions, so that ordering properties (what happens
before what, and what never happens) can be stated and proved.
-/

set_option linter.unusedVariables false

namespace CylcUIServer

/-! ## The bounded message queue

`SubscriptionHandler.initialize` creates `self.queue = Queue(100)`, an
`asyncio.Queue`.  The queue is modelled by its buffer (oldest message first)
together with the list of messages held by producers currently suspended in
`put` (asyncio keeps those coroutines in `_putters`, in arrival order).  The
operations below follow asyncio's documented semantics: `put` appends to the
buffer when the buffer holds fewer than `maxsize` items and otherwise suspends
the producer; `get` pops the oldest buffered message and wakes the first
suspended producer, whose message then enters the buffer; `get_nowait` raises
`QueueEmpty` on an empty buffer instead of suspending. -/
structure MQueue (α : Type) where
  maxsize : Nat
  buffer : List α
  putters : List α
deriving DecidableEq

/-- A fresh empty queue of the given capacity, as built by `Queue(maxsize)`. -/
def MQueue.mk0 (cap : Nat) : MQueue α := ⟨cap, [], []⟩

/-- `Queue.put`: enqueue when the buffer is below capacity, otherwise the
producer suspends holding its message (the returned flag is `true` exactly
when the producer suspended; the message is never dropped). -/
def MQueue.put (q : MQueue α) (m : α) : MQueue α × Bool :=
  if q.buffer.length < q.maxsize then
    ({ q with buffer := q.buffer ++ [m] }, false)
  else
    ({ q with putters := q.putters ++ [m] }, true)

/-- `Queue.get`: `none` when the buffer is empty (the consumer would suspend);
otherwise return the oldest buffered message and wake the first suspended
producer, moving its message into the buffer. -/
def MQueue.get (q : MQueue α) : Option (α × MQueue α) :=
  match q.buffer, q.putters with
  | [], _ => none
  | m :: rest, [] => some (m, { q with buffer := rest })
  | m :: rest, p :: ps => some (m, { q with buffer := rest ++ [p], putters := ps })

/-- `Queue.get_nowait`: raise `QueueEmpty` (modelled as `Except.error ()`)
when the buffer is empty, otherwise behave as `get`. -/
def MQueue.get_nowait (q : MQueue α) : Except Unit (α × MQueue α) :=
  match q.get with
  | none => Except.error ()
  | some r => Except.ok r

/-! ## SubscriptionHandler queue plumbing (src lines 182-207) -/

/-- `SubscriptionHandler.on_message`: `await self.queue.put(message)`. -/
def on_message (q : MQueue α) (m : α) : MQueue α × Bool := q.put m

/-- `SubscriptionHandler.recv`: `await self.queue.get()`. -/
def recv (q : MQueue α) : Option (α × MQueue α) := q.get

/-- `SubscriptionHandler.recv_nowait`: `self.queue.get_nowait()`. -/
def recv_nowait (q : MQueue α) : Except Unit (α × MQueue α) := q.get_nowait

/-- The queue created by `SubscriptionHandler.initialize`: `Queue(100)`. -/
def initQueue : MQueue String := MQueue.mk0 100

/-- Deliver a sequence of inbound frames to `on_message`, one after another
(dropping the suspension flag: a suspended producer's message is kept in
`putters`, so nothing is lost). -/
def putAll (q : MQueue α) (ms : List α) : MQueue α :=
  ms.foldl (fun q m => (on_message q m).1) q

/-- Perform `n` successive `recv` calls, collecting the messages returned
(stopping early if the consumer would suspend on an empty buffer). -/
def getN : MQueue α → Nat → List α × MQueue α
  | q, 0 => ([], q)
  | q, n + 1 =>
    match recv q with
    | none => ([], q)
    | some (m, q') =>
      let r := getN q' n
      (m :: r.1, r.2)

/-! ## Sub-protocol negotiation (src lines 187-188) -/

/-- `graphql_ws.constants.GRAPHQL_WS`, the fixed GraphQL-over-websocket
sub-protocol token. -/
def GRAPHQL_WS : String := "graphql-ws"

/-- `SubscriptionHandler.select_subprotocol`: returns the fixed constant
`GRAPHQL_WS`, regardless of the offered list. -/
def select_subprotocol (subprotocols : List String) : String := GRAPHQL_WS

/-- Transport-level sub-protocol negotiation.  The websocket transport
(external collaborator) passes the offered sub-protocol list to the handler's
`select_subprotocol` hook and, by its documented contract, only completes the
handshake when the selected value is one of the offered ones; otherwise the
handshake fails.  `none` means negotiation failed and the handshake is
rejected. -/
def transportNegotiate (offered : List String) : Option String :=
  if select_subprotocol offered ∈ offered then some (select_subprotocol offered)
  else none

/-! ## The authorisation gate (src lines 68-83)

A principal is modelled by its name; `Option String` covers the case where the
authentication provider resolves no principal (Python `None`). -/

/-- An HTTP error as raised by `tornado.web.HTTPError(status, reason=...)`. -/
structure HTTPError where
  status : Nat
  reason : String
deriving DecidableEq

/-- `CylcAppHandler._authorise`: the placeholder policy, which returns `True`
for every user (the stricter identity check is commented out in the source). -/
def _authorise (user : Option String) : Bool := true

/-- The body of `CylcAppHandler.authorise`, abstracted over the dynamically
dispatched `self._authorise`: raise `HTTPError(403, reason='authorisation
insufficient')` when the policy denies, otherwise return normally. -/
def authoriseWith (policy : Option String → Bool) (user : Option String) :
    Except HTTPError Unit :=
  if policy user = false then Except.error ⟨403, "authorisation insufficient"⟩
  else Except.ok ()

/-- `CylcAppHandler.authorise` with the module's actual `_authorise` policy. -/
def authorise (user : Option String) : Except HTTPError Unit :=
  authoriseWith _authorise user

/-- `CylcAppHandler.get_current_user`: obtain the resolved user from the base
class, call `self.authorise(user)` on it (unconditionally, also when the
resolver produced no principal), and return it. -/
def get_current_user (resolved : Option String) : Except HTTPError (Option String) :=
  match authorise resolved with
  | Except.error e => Except.error e
  | Except.ok _ => Except.ok resolved

/-- The arguments `get_current_user` passes to `authorise`: the source calls
`self.authorise(user)` exactly once, with whatever the resolver returned. -/
def get_current_user_authorise_calls (resolved : Option String) : List (Option String) :=
  [resolved]

/-! ## Per-connection lifecycle (src lines 180-207)

The web framework (external collaborator) drives one websocket connection to
`SubscriptionHandler` in this order:

1. it constructs the handler and calls `initialize`, which creates
   `self.queue = Queue(100)` — before any handshake processing;
2. it invokes the decorated `get`: the `websockets_authenticated` decorator
   (code of this repository outside this module; modelled from the spec: a
   principal that fails resolution is rejected with an authentication error
   before the handshake completes) reads the current user, which invokes
   `get_current_user` and hence `authorise` on the resolver's result; an
   unresolved principal or an authorisation error rejects the handshake;
3. the transport performs sub-protocol negotiation via `select_subprotocol`;
   failed negotiation rejects the handshake;
4. on success `open` fires, which spawns the subscription-server task;
5. each inbound frame then triggers `on_message`, i.e. a queue `put`.

Each primitive observable step is an `Action`; `lifecycle` is the trace of
actions performed for one connection, given the resolver's result, the offered
sub-protocol list, and the inbound frames. -/
inductive Action where
  | createQueue
  | authoriseCall (user : Option String)
  | negotiated (p : String)
  | rejectHandshake
  | fireOpen
  | spawnTask
  | enqueue (m : String)
deriving DecidableEq

/-- The action trace of one connection (see the module docstring above). -/
def lifecycle (resolved : Option String) (offered : List String)
    (msgs : List String) : List Action :=
  Action.createQueue ::
  Action.authoriseCall resolved ::
  match resolved with
  | none => [Action.rejectHandshake]
  | some _ =>
    match authorise resolved with
    | Except.error _ => [Action.rejectHandshake]
    | Except.ok _ =>
      match transportNegotiate offered with
      | none => [Action.rejectHandshake]
      | some p =>
        Action.negotiated p :: Action.fireOpen :: Action.spawnTask ::
        msgs.map Action.enqueue

/-! ## User profile endpoint (src lines 96-118) -/

/-- Python dict assignment `d[k] = v` on a dictionary modelled as an
association list: overwrite the binding when the key is present, otherwise
append a new binding. -/
def dictSet : List (String × String) → String → String → List (String × String)
  | [], k, v => [(k, v)]
  | (k', v') :: rest, k, v =>
    if k' = k then (k, v) :: rest else (k', v') :: dictSet rest k v

/-- `UserProfileHandler.get`, parametrised by the process username `me`
(`ME = getpass.getuser()` at import time) and the hostname: when the hub
supplied a user-info dictionary it is used as is, otherwise a
`kind`/`name`/`server` dictionary is built; in both cases the `owner` entry is
then set to `me`. -/
def userProfileGet (me : String) (host : String)
    (hub : Option (List (String × String))) : List (String × String) :=
  match hub with
  | some user_info => dictSet user_info "owner" me
  | none => dictSet [("kind", "user"), ("name", me), ("server", host)] "owner" me

end CylcUIServer

namespace CylcUIServer

/-! ## Helper lemmas -/

/-- When the GraphQL token is offered, negotiation selects it. -/
theorem transportNegotiate_mem (offered : List String)
    (h : GRAPHQL_WS ∈ offered) : transportNegotiate offered = some GRAPHQL_WS := by
  unfold transportNegotiate select_subprotocol
  simp [h]

/-- When the GraphQL token is not offered, negotiation fails. -/
theorem transportNegotiate_not_mem (offered : List String)
    (h : GRAPHQL_WS ∉ offered) : transportNegotiate offered = none := by
  unfold transportNegotiate select_subprotocol
  simp [h]

/-- The gate never raises: the placeholder policy allows every user. -/
theorem authorise_ok (user : Option String) : authorise user = Except.ok () := rfl

/-- The lifecycle trace when the principal does not resolve. -/
theorem lifecycle_none (offered msgs : List String) :
    lifecycle none offered msgs =
      [Action.createQueue, Action.authoriseCall none, Action.rejectHandshake] := rfl

/-- The lifecycle trace when the principal resolves but negotiation fails. -/
theorem lifecycle_some_reject (u : String) (offered msgs : List String)
    (h : transportNegotiate offered = none) :
    lifecycle (some u) offered msgs =
      [Action.createQueue, Action.authoriseCall (some u), Action.rejectHandshake] := by
  unfold lifecycle
  rw [authorise_ok, h]

/-- The lifecycle trace of a successful connection. -/
theorem lifecycle_some_open (u p : String) (offered msgs : List String)
    (h : transportNegotiate offered = some p) :
    lifecycle (some u) offered msgs =
      Action.createQueue :: Action.authoriseCall (some u) :: Action.negotiated p ::
        Action.fireOpen :: Action.spawnTask :: msgs.map Action.enqueue := by
  unfold lifecycle
  rw [authorise_ok, h]

/-! ## Claims -/

/-- C1: for every offered sub-protocol list, negotiation selects the fixed
`GRAPHQL_WS` constant when it is present, and otherwise negotiation fails and
the handshake is rejected (the handler's `select_subprotocol` hook returns the
constant, and the transport completes the handshake only when the selection
was among the offered protocols). -/
theorem C1_subprotocol_negotiation (offered : List String) :
    (GRAPHQL_WS ∈ offered → transportNegotiate offered = some GRAPHQL_WS) ∧
    (GRAPHQL_WS ∉ offered → transportNegotiate offered = none) :=
  ⟨transportNegotiate_mem offered, transportNegotiate_not_mem offered⟩

theorem C1_subprotocol_negotiation_witness :
    transportNegotiate ["graphql-ws", "foo"] = some GRAPHQL_WS ∧
    transportNegotiate ["foo"] = none :=
  ⟨(C1_subprotocol_negotiation ["graphql-ws", "foo"]).1 (by decide),
   (C1_subprotocol_negotiation ["foo"]).2 (by decide)⟩

/-- C3: the placeholder policy `_authorise` returns allow for every user, in
particular for two distinct principal names, and `authorise` therefore never
rejects a resolved principal. -/
theorem C3_authorise_allows_everyone :
    (∀ user : Option String, _authorise user = true) ∧
    (∀ user : Option String, authorise user = Except.ok ()) ∧
    _authorise (some "alice") = true ∧ _authorise (some "bob") = true ∧
    ("alice" : String) ≠ "bob" :=
  ⟨fun _ => rfl, fun _ => rfl, rfl, rfl, by decide⟩

/-- C7: `authorise user` raises an HTTP 403 error with reason exactly
`authorisation insufficient` if and only if the dispatched `_authorise` policy
denies `user`; when the policy allows, it returns normally.  Stated for the
`authorise` body over an arbitrary dispatched policy, and instantiated with
the module's actual `_authorise`. -/
theorem C7_authorise_http_403 (user : Option String) :
    (∀ policy : Option String → Bool,
      (authoriseWith policy user = Except.error ⟨403, "authorisation insufficient"⟩ ↔
        policy user = false) ∧
      (policy user = true → authoriseWith policy user = Except.ok ())) ∧
    (_authorise user = true → authorise user = Except.ok ()) := by
  refine ⟨fun policy => ?_, fun _ => rfl⟩
  unfold authoriseWith
  cases h : policy user <;> simp [h]

theorem C7_authorise_http_403_witness :
    authoriseWith (fun _ => false) (some "alice") =
      Except.error ⟨403, "authorisation insufficient"⟩ ∧
    authorise (some "alice") = Except.ok () :=
  ⟨(((C7_authorise_http_403 (some "alice")).1 (fun _ => false)).1).mpr rfl,
   (C7_authorise_http_403 (some "alice")).2 rfl⟩

/-- C9: `recv_nowait` on an empty queue raises the immediate `QueueEmpty`
signal instead of suspending, and on a non-empty queue returns the head
(oldest) message. -/
theorem C9_recv_nowait_empty_or_head (q : MQueue String) :
    (q.buffer = [] → recv_nowait q = Except.error ()) ∧
    (∀ m rest, q.buffer = m :: rest → ∃ q', recv_nowait q = Except.ok (m, q')) := by
  obtain ⟨cap, buf, ps⟩ := q
  constructor
  · intro h
    subst h
    rfl
  · intro m rest h
    simp only at h
    subst h
    cases ps with
    | nil => exact ⟨⟨cap, rest, []⟩, rfl⟩
    | cons p ps' => exact ⟨⟨cap, rest ++ [p], ps'⟩, rfl⟩

theorem C9_recv_nowait_witness :
    recv_nowait (⟨100, [], []⟩ : MQueue String) = Except.error () ∧
    ∃ q', recv_nowait (⟨100, ["a", "b"], []⟩ : MQueue String) = Except.ok ("a", q') :=
  ⟨(C9_recv_nowait_empty_or_head ⟨100, [], []⟩).1 rfl,
   (C9_recv_nowait_empty_or_head ⟨100, ["a", "b"], []⟩).2 "a" ["b"] rfl⟩

/-- Setting a key in a dictionary makes lookup of that key return the new
value, whether or not the key was previously bound. -/
theorem lookup_dictSet (d : List (String × String)) (k v : String) :
    (dictSet d k v).lookup k = some v := by
  induction d with
  | nil => simp [dictSet, List.lookup]
  | cons kv rest ih =>
    obtain ⟨k', v'⟩ := kv
    by_cases h : k' = k
    · simp [dictSet, h, List.lookup]
    · simp only [dictSet, if_neg h, List.lookup]
      have : (k == k') = false := by
        simp [Ne.symm h]
      rw [this]
      exact ih

/-- Delivering messages to a queue whose buffer has room for all of them and
whose producers are all unsuspended simply appends them to the buffer. -/
theorem putAll_below_cap (cap : Nat) :
    ∀ (ms buf : List String), buf.length + ms.length ≤ cap →
      putAll (⟨cap, buf, []⟩ : MQueue String) ms = ⟨cap, buf ++ ms, []⟩ := by
  intro ms
  induction ms with
  | nil =>
    intro buf h
    simp [putAll]
  | cons m rest ih =>
    intro buf h
    simp only [List.length_cons] at h
    have hlt : buf.length < cap := by omega
    have hstep : (on_message (⟨cap, buf, []⟩ : MQueue String) m).1 =
        ⟨cap, buf ++ [m], []⟩ := by
      simp [on_message, MQueue.put, hlt]
    have hfold : putAll (⟨cap, buf, []⟩ : MQueue String) (m :: rest) =
        putAll ((on_message (⟨cap, buf, []⟩ : MQueue String) m).1) rest := rfl
    rw [hfold, hstep, ih (buf ++ [m]) (by simp; omega)]
    simp

/-- Successive `recv` calls on a queue with no suspended producers return the
buffer's prefix, in order. -/
theorem getN_take (cap : Nat) :
    ∀ (n : Nat) (buf : List String), n ≤ buf.length →
      (getN (⟨cap, buf, []⟩ : MQueue String) n).1 = buf.take n := by
  intro n
  induction n with
  | zero =>
    intro buf h
    simp [getN]
  | succ k ih =>
    intro buf h
    cases buf with
    | nil => simp at h
    | cons m rest =>
      have hr : recv (⟨cap, m :: rest, []⟩ : MQueue String) =
          some (m, ⟨cap, rest, []⟩) := rfl
      simp only [getN, hr, List.take_succ_cons, List.cons.injEq, true_and]
      exact ih rest (by simpa using h)

/-- C4: any sequence of at most 100 inbound messages delivered to `on_message`
before any consumer call is returned, complete and in arrival order, by that
many successive `recv` calls on the handler's queue. -/
theorem C4_fifo_order_no_loss (msgs : List String) (h : msgs.length ≤ 100) :
    (getN (putAll initQueue msgs) msgs.length).1 = msgs := by
  have h1 : putAll initQueue msgs = ⟨100, msgs, []⟩ := by
    have h2 := putAll_below_cap 100 msgs [] (by simpa using h)
    simpa [initQueue, MQueue.mk0] using h2
  rw [h1, getN_take 100 msgs.length msgs le_rfl, List.take_length]

theorem C4_fifo_order_no_loss_witness :
    (getN (putAll initQueue ["a", "b", "c"]) 3).1 = ["a", "b", "c"] :=
  C4_fifo_order_no_loss ["a", "b", "c"] (by decide)

set_option maxRecDepth 8000 in
/-- C5: the queue created by `initialize` has capacity exactly 100; after the
messages `1..100` are enqueued with none consumed, delivering message `101`
suspends the producer without dropping the message (the buffer still holds
`1..100` and the suspended producer holds `101`), and a single `recv` then
returns message `1`, completes the suspended put, and leaves `2..101`
enqueued. -/
theorem C5_capacity_and_backpressure :
    initQueue.maxsize = 100 ∧
    (on_message (putAll (MQueue.mk0 100) (List.range' 1 100)) 101).2 = true ∧
    (on_message (putAll (MQueue.mk0 100) (List.range' 1 100)) 101).1.buffer =
      List.range' 1 100 ∧
    (on_message (putAll (MQueue.mk0 100) (List.range' 1 100)) 101).1.putters = [101] ∧
    recv (on_message (putAll (MQueue.mk0 100) (List.range' 1 100)) 101).1 =
      some (1, ⟨100, List.range' 2 100, []⟩) :=
  ⟨rfl, by decide, by decide, by decide, by decide⟩

/-- C2 counterexample: for a connection offering only `foo` (no GraphQL
token), the handshake is rejected, yet the queue was already created — it is
the very first action of the lifecycle, performed by `initialize` at handler
construction, before negotiation — so the rejection does not happen before
queue creation as the claim states (its before-`open` half does hold). -/
theorem C2_queue_exists_for_rejected_handshake :
    (lifecycle (some "alice") ["foo"] []).head? = some Action.createQueue ∧
    Action.rejectHandshake ∈ lifecycle (some "alice") ["foo"] [] ∧
    Action.fireOpen ∉ lifecycle (some "alice") ["foo"] [] ∧
    Action.createQueue ∈ lifecycle (some "alice") ["foo"] [] := by
  decide

/-- C2 amended: a connection offering a sub-protocol list without the GraphQL
token is rejected before `open` fires and before any subscription task is
spawned; the MessageQueue, however, is created by `initialize` at handler
construction — it is the very first lifecycle action, preceding the rejection
— so a queue does exist even for the rejected handshake. -/
theorem C2_rejected_before_open (resolved : Option String)
    (offered msgs : List String) (h : GRAPHQL_WS ∉ offered) :
    Action.fireOpen ∉ lifecycle resolved offered msgs ∧
    Action.spawnTask ∉ lifecycle resolved offered msgs ∧
    Action.rejectHandshake ∈ lifecycle resolved offered msgs ∧
    Action.createQueue ∈ lifecycle resolved offered msgs ∧
    (lifecycle resolved offered msgs).head? = some Action.createQueue := by
  have hn := transportNegotiate_not_mem offered h
  cases resolved with
  | none =>
    rw [lifecycle_none]
    refine ⟨by simp, by simp, by simp, by simp, rfl⟩
  | some u =>
    rw [lifecycle_some_reject u offered msgs hn]
    refine ⟨by simp, by simp, by simp, by simp, rfl⟩

theorem C2_rejected_before_open_witness :
    Action.fireOpen ∉ lifecycle (some "carol") ["bar"] ["m1"] ∧
    Action.spawnTask ∉ lifecycle (some "carol") ["bar"] ["m1"] ∧
    Action.rejectHandshake ∈ lifecycle (some "carol") ["bar"] ["m1"] ∧
    Action.createQueue ∈ lifecycle (some "carol") ["bar"] ["m1"] ∧
    (lifecycle (some "carol") ["bar"] ["m1"]).head? = some Action.createQueue :=
  C2_rejected_before_open (some "carol") ["bar"] ["m1"] (by decide)

/-- C6 counterexample: when the resolver yields no principal, the
authorisation gate is still invoked, with the absent principal —
`get_current_user` calls `self.authorise(user)` unconditionally — refuting the
claim that the gate is never invoked with an absent principal. -/
theorem C6_gate_invoked_with_absent_principal :
    Action.authoriseCall none ∈ lifecycle none ["graphql-ws"] ["m"] ∧
    get_current_user_authorise_calls none = [none] :=
  ⟨by decide, rfl⟩

/-- C6 amended: when principal resolution fails, the gate is in fact invoked
with the absent principal (which the placeholder policy allows), but the
handshake is still rejected by the authentication layer, `open` never fires,
and no subscription task is spawned for that connection. -/
theorem C6_no_task_without_principal (offered msgs : List String) :
    Action.authoriseCall none ∈ lifecycle none offered msgs ∧
    Action.spawnTask ∉ lifecycle none offered msgs ∧
    Action.fireOpen ∉ lifecycle none offered msgs ∧
    Action.rejectHandshake ∈ lifecycle none offered msgs := by
  rw [lifecycle_none]
  refine ⟨by simp, by simp, by simp, by simp⟩

/-- C8 counterexample: the queue is created even on a connection whose
handshake is rejected and whose `open` event therefore never fires — so the
queue is not created "at the `open` event" as the claim states; it is created
earlier, by `initialize` at handler construction. -/
theorem C8_queue_created_without_open :
    Action.createQueue ∈ lifecycle (some "bob") ["other"] [] ∧
    Action.fireOpen ∉ lifecycle (some "bob") ["other"] [] := by
  decide

/-- C8 amended: for every connection, the queue is created exactly once, as
the very first lifecycle action (`initialize`, at handler construction) —
hence before `open` and before any `on_message` event — and is never replaced
for the lifetime of the connection. -/
theorem C8_queue_created_once_at_initialize (resolved : Option String)
    (offered msgs : List String) :
    (lifecycle resolved offered msgs).count Action.createQueue = 1 ∧
    (lifecycle resolved offered msgs).head? = some Action.createQueue := by
  constructor
  · cases resolved with
    | none =>
      rw [lifecycle_none]
      decide
    | some u =>
      cases hn : transportNegotiate offered with
      | none =>
        rw [lifecycle_some_reject u offered msgs hn]
        simp [List.count_cons]
      | some p =>
        have hz : Action.createQueue ∉ List.map Action.enqueue msgs := by
          intro hmem
          obtain ⟨m, hm, he⟩ := List.mem_map.mp hmem
          exact Action.noConfusion he
        rw [lifecycle_some_open u p offered msgs hn]
        simp only [List.count_cons]
        rw [List.count_eq_zero.mpr hz]
        rfl
  · cases resolved with
    | none => rfl
    | some u => rfl

/-- C10: the user-profile endpoint always reports `owner` equal to the process
username `me`, for every hub-supplied user-info dictionary (any owner entry the
hub supplied is overwritten) and also on the token-authentication path. -/
theorem C10_owner_is_process_user (me host : String)
    (hub : Option (List (String × String))) :
    (userProfileGet me host hub).lookup "owner" = some me := by
  cases hub with
  | none => exact lookup_dictSet _ "owner" me
  | some user_info => exact lookup_dictSet user_info "owner" me

end CylcUIServer
